import Mathlib

/-!
Verification of the natural-language specification of
`homebridge-garagedoor-ryobi-tiwiconnect` against its single source file
`src/RyobiGDOApi.ts`.

The TypeScript code is shallowly embedded: JavaScript numbers that occur
here are integers (door-state codes, port/module identifiers, millisecond
timestamps), optional / possibly-absent JavaScript values become `Option`,
thrown exceptions become `Except`, and the network is abstracted by
passing the parsed response bodies (and the outcome of nested
`getApiKey` calls) explicitly through an `ApiEnv` record.  JavaScript
truthiness of strings and numbers is modelled explicitly
(`truthyStr`, `truthyNum`).
-/

/-- DoorState mirrors the TypeScript union type
`'CLOSED' | 'OPEN' | 'CLOSING' | 'OPENING'`. -/
inductive DoorState
  | CLOSED
  | OPEN
  | CLOSING
  | OPENING
deriving DecidableEq, Repr

/-- Embedding of the `doorStateMap` literal of `RyobiGDOApi.ts` (lines 23-28):
a finite map from numeric door-state codes to `DoorState`. -/
def doorStateMap : List (Int × DoorState) :=
  [(0, DoorState.CLOSED), (1, DoorState.OPEN), (2, DoorState.CLOSING), (3, DoorState.OPENING)]

/-- JavaScript truthiness of an optional string: `undefined` and the empty
string are falsy, every other string is truthy. -/
def truthyStr : Option String → Bool
  | none => false
  | some s => decide (s ≠ "")

/-- JavaScript truthiness of an optional number: `undefined` and `0` are
falsy (NaN does not arise in this integer model). -/
def truthyNum : Option Int → Bool
  | none => false
  | some n => decide (n ≠ 0)

/-- Primitive JavaScript value appearing inside the nested status response:
a string, a number, or anything else. -/
inductive JsPrim
  | str (s : String)
  | num (n : Int)
  | other
deriving DecidableEq, Repr

/-- Embedding of the source helper `toNumber` (lines 285-287):
`typeof value === 'number' ? value : undefined`, applied to a value that may
itself be absent because of optional chaining. -/
def toNumber : Option JsPrim → Option Int
  | some (JsPrim.num n) => some n
  | _ => none

/-- RyobiGDODevice models the device record of the plugin.  The type file
`RyobiGDODevice.ts` is not part of the given sources; the field list is taken
from the spec's data model (id, name, description, model, type, moduleId,
portId, state, stateAsOf) and from the uses in `RyobiGDOApi.ts`.  All fields
are optional because the API receives `Partial<RyobiGDODevice>`.
`type` is a Lean keyword, hence the field name `type_`. -/
structure RyobiGDODevice where
  id : Option String
  name : Option String
  description : Option String
  model : Option String
  type_ : Option String
  moduleId : Option Int
  portId : Option Int
  state : Option Int
  stateAsOf : Option Int
deriving DecidableEq, Repr

/-- Raw `metaData` object of a device-list entry (`GET /api/devices`). -/
structure RawMeta where
  name : Option String
  description : Option String
deriving DecidableEq, Repr

/-- Raw device-list entry as returned by `GET /api/devices`. -/
structure RawDevice where
  varName : Option String
  metaData : Option RawMeta
  deviceTypeIds : Option (List String)
deriving DecidableEq, Repr

/-- Fully populated device object produced by `getDevices` (lines 150-156):
every field is a plain string, never absent. -/
structure FullDevice where
  description : String
  name : String
  id : String
  model : String
  type_ : String
deriving DecidableEq, Repr

/-- Check whether `pat` occurs at the head of `l`. -/
def listHeadMatches : List Char → List Char → Bool
  | [], _ => true
  | _ :: _, [] => false
  | p :: ps, c :: cs => p == c && listHeadMatches ps cs

/-- Check whether `pat` occurs anywhere inside `l` (contiguously). -/
def containsSub (pat : List Char) : List Char → Bool
  | [] => listHeadMatches pat []
  | c :: cs => listHeadMatches pat (c :: cs) || containsSub pat cs

/-- Embedding of the regular expression test `/hub/i.test(s)` (line 155):
the string contains "hub" case-insensitively (both sides compared
lower-cased, as the `i` flag does). -/
def hubCI (s : String) : Bool :=
  containsSub "hub".toList (s.toList.map Char.toLower)

/-- Embedding of the per-entry mapping inside `getDevices` (lines 150-156). -/
def mapRawDevice (r : RawDevice) : FullDevice :=
  { description := (r.metaData.bind RawMeta.description).getD ""
    name := (r.metaData.bind RawMeta.name).getD ""
    id := r.varName.getD ""
    model := (r.deviceTypeIds.bind List.head?).getD ""
    type_ := if hubCI ((r.deviceTypeIds.bind List.head?).getD "") then "hub" else "gdo" }

/-- Errors thrown by the API methods (the `throw new Error(...)` sites and
the websocket rejections of `RyobiGDOApi.ts`). -/
inductive ApiErr
  | unauthorized (raw : String)
  | invalidResponse
  | doorModuleIdUndefined
  | doorPortIdUndefined
  | wsClosedPrematurely
  | wsError (msg : String)
deriving DecidableEq, Repr

/-- Value of the `result` field of `GET /api/devices`: either a string
(the unauthorized shape) or an array of raw devices. -/
inductive DevListResult
  | strRes (s : String)
  | arrRes (l : List RawDevice)
deriving DecidableEq, Repr

/-- Nested `at` object of one module inside `deviceTypeMap`.  Each field
models the final value of the corresponding optional chain in the source
(`m?.at?.moduleProfiles?.value`, `...portId?.value`, `...moduleId?.value`,
`...doorState?.value`); `moduleProfilesValue` is `some` exactly when the
value is an array (`Array.isArray`), absent or non-array values are `none`. -/
structure ModuleAt where
  moduleProfilesValue : Option (List JsPrim)
  portIdValue : Option JsPrim
  moduleIdValue : Option JsPrim
  doorStateValue : Option JsPrim
deriving DecidableEq, Repr

/-- One module entry inside `deviceTypeMap`; its `at` object may be absent. -/
structure RyobiModule where
  at_ : Option ModuleAt
deriving DecidableEq, Repr

/-- First element of the device-status `result` array; `deviceTypeMap` is an
object, modelled as an association list in insertion order
(`Object.values` iterates in insertion order). -/
structure StatusEntry where
  deviceTypeMap : Option (List (String × RyobiModule))
deriving DecidableEq, Repr

/-- Environment for one API interaction: the parsed response bodies the
network would deliver and the outcome of the nested `getApiKey()` call
(abstracted; the full cookie-level model of `getApiKey` appears further
below), plus the current time `Date.now()`. -/
structure ApiEnv where
  authResult : Except ApiErr String
  devListResult : DevListResult
  statusResult : Option (List StatusEntry)
  now : Int
deriving Repr

/-- Embedding of `getDevices` (lines 147-157): ensure the API key, fetch the
raw device list (`getDevicesRaw`, lines 182-189, which throws when `result`
is not an array), and map every entry. -/
def getDevices (env : ApiEnv) : Except ApiErr (List FullDevice) :=
  match env.authResult with
  | Except.error e => Except.error e
  | Except.ok _ =>
    match env.devListResult with
    | DevListResult.strRes s => Except.error (ApiErr.unauthorized s)
    | DevListResult.arrRes l => Except.ok (l.map mapRawDevice)

/-- Effect of `Object.assign(device, found)` (lines 168-176): when a device
was found, all five of its (always-present) fields overwrite the target's;
`Object.assign(device, undefined)` is a no-op. -/
def assignFull (dev : RyobiGDODevice) (f : FullDevice) : RyobiGDODevice :=
  { dev with
    description := some f.description
    name := some f.name
    id := some f.id
    model := some f.model
    type_ := some f.type_ }

/-- Optional variant of `assignFull` for the result of `Array.prototype.find`. -/
def assignDevice (dev : RyobiGDODevice) : Option FullDevice → RyobiGDODevice
  | none => dev
  | some f => assignFull dev f

/-- Embedding of `getDeviceId` (lines 159-180): no-op when `device.id` is
truthy; otherwise list the devices and merge either the entry whose name
strictly equals `device.name` (when a name is given) or the first non-hub
entry. -/
def getDeviceId (dev : RyobiGDODevice) (env : ApiEnv) : Except ApiErr RyobiGDODevice :=
  if truthyStr dev.id then Except.ok dev
  else
    match getDevices env with
    | Except.error e => Except.error e
    | Except.ok devices =>
      if truthyStr dev.name then
        Except.ok (assignDevice dev (devices.find? fun x => decide (dev.name = some x.name)))
      else
        Except.ok (assignDevice dev (devices.find? fun x => decide (x.type_ ≠ "hub")))

/-- Predicate of the `find` on line 87-91: the module's
`at.moduleProfiles.value` is an array containing at least one string that
starts with `garageDoor_` (`v.indexOf('garageDoor_') === 0`). -/
def isGarageDoorModule (m : RyobiModule) : Bool :=
  match m.at_ with
  | none => false
  | some a =>
    match a.moduleProfilesValue with
    | none => false
    | some l =>
      l.any fun v =>
        match v with
        | JsPrim.str s => listHeadMatches "garageDoor_".toList s.toList
        | _ => false

/-- JavaScript string conversion of `device.portId` in
`'garageDoor_' + device.portId` (line 95): an absent number prints as
"undefined". -/
def jsNumToString : Option Int → String
  | some n => toString n
  | none => "undefined"

/-- Mutations performed by `updateDevice` once a `deviceTypeMap` was found
(lines 87-96): locate the garage-door module, copy its numeric `portId` and
`moduleId`, look up the `garageDoor_<portId>` entry for the numeric door
state, and stamp `stateAsOf` with the current time. -/
def applyStatus (dev : RyobiGDODevice) (map : List (String × RyobiModule)) (now : Int) :
    RyobiGDODevice :=
  let garageDoorModule := (map.map Prod.snd).find? isGarageDoorModule
  let newPortId := toNumber ((garageDoorModule.bind RyobiModule.at_).bind ModuleAt.portIdValue)
  let newModuleId := toNumber ((garageDoorModule.bind RyobiModule.at_).bind ModuleAt.moduleIdValue)
  let stateModule := map.lookup ("garageDoor_" ++ jsNumToString newPortId)
  let newState := toNumber ((stateModule.bind RyobiModule.at_).bind ModuleAt.doorStateValue)
  { dev with
    portId := newPortId
    moduleId := newModuleId
    state := newState
    stateAsOf := some now }

/-- Embedding of `updateDevice` (lines 69-97): resolve the id when falsy,
ensure an API key, throw on an absent or empty `result` array, return
unchanged (after logging) when the first element has no `deviceTypeMap`,
otherwise apply the status mutations. -/
def updateDevice (dev : RyobiGDODevice) (env : ApiEnv) : Except ApiErr RyobiGDODevice :=
  match (if truthyStr dev.id then Except.ok dev else getDeviceId dev env) with
  | Except.error e => Except.error e
  | Except.ok dev1 =>
    match env.authResult with
    | Except.error e => Except.error e
    | Except.ok _ =>
      match env.statusResult with
      | some (first :: _) =>
        match first.deviceTypeMap with
        | none => Except.ok dev1
        | some map => Except.ok (applyStatus dev1 map env.now)
      | _ => Except.error ApiErr.invalidResponse

/-- Embedding of `getStatus` (lines 55-67): update the device, return
`undefined` when the state code is unresolved, otherwise the (possibly
absent) `doorStateMap` entry for the code. -/
def getStatus (dev : RyobiGDODevice) (env : ApiEnv) : Except ApiErr (Option DoorState) :=
  match updateDevice dev env with
  | Except.error e => Except.error e
  | Except.ok d =>
    match d.state with
    | none => Except.ok none
    | some code => Except.ok (doorStateMap.lookup code)

/-- Frames sent on the websocket, in the structured form the source
serialises to JSON: the auth frame (lines 208-215), the
`gdoModuleCommand` frame (lines 225-239, `msgType` is always 16), and a
transport-level ping (line 244). -/
inductive WsFrame
  | auth (email apiKey : String)
  | command (msgType : Int) (moduleType : Option Int) (portId : Option Int)
      (doorCommand : Int) (topic : Option String)
  | ping
deriving DecidableEq, Repr

/-- Rejection values of the websocket promise: the string
`'WebSocket closed prematurely'` (line 257) or the underlying transport
error (line 263). -/
inductive WsReject
  | premature
  | transportFault (msg : String)
deriving DecidableEq, Repr

/-- Events delivered by the `ws` library to the registered handlers:
connection open, a text message (reduced to the JavaScript truthiness of
`returnObj.result?.authorized`), a pong, connection close, and a transport
error. -/
inductive WsEvent
  | connOpen
  | message (authorized : Bool)
  | pong
  | connClose
  | connError (msg : String)
deriving DecidableEq, Repr

/-- Parameters captured by the websocket handlers in
`sendWebsocketCommand`: credentials email, the API key, the device's
addressing fields and id, and the door command payload. -/
structure WsCtx where
  email : String
  apiKey : String
  moduleId : Option Int
  portId : Option Int
  topic : Option String
  doorCommand : Int
deriving DecidableEq, Repr

/-- Mutable state of one websocket invocation: the `complete` flag
(line 203), the frames sent so far, and the settled value of the promise
(`none` while still pending; a promise settles at most once). -/
structure WsState where
  complete : Bool
  sent : List WsFrame
  outcome : Option (Except WsReject Unit)
deriving Repr

/-- Settle the promise: `resolve`/`reject` have an effect only while the
promise is still pending. -/
def settleWs (s : WsState) (r : Except WsReject Unit) : WsState :=
  match s.outcome with
  | some _ => s
  | none => { s with outcome := some r }

/-- Command frame built on an authorized message (lines 225-239). -/
def commandFrame (ctx : WsCtx) : WsFrame :=
  WsFrame.command 16 ctx.moduleId ctx.portId ctx.doorCommand ctx.topic

/-- One step of the websocket event handlers (lines 207-264): `open` sends
the auth frame; an unauthorized message is ignored; an authorized message
sends the command frame, sets the `complete` flag and sends a ping; `pong`
terminates the socket and resolves; `close` rejects with the premature
message when `complete` is not set; `error` rejects with the fault. -/
def wsStep (ctx : WsCtx) (s : WsState) : WsEvent → WsState
  | WsEvent.connOpen => { s with sent := s.sent ++ [WsFrame.auth ctx.email ctx.apiKey] }
  | WsEvent.message authorized =>
    if authorized then
      { s with
        complete := true
        sent := s.sent ++ [commandFrame ctx, WsFrame.ping] }
    else s
  | WsEvent.pong => settleWs s (Except.ok ())
  | WsEvent.connClose =>
    if s.complete then s else settleWs s (Except.error WsReject.premature)
  | WsEvent.connError m => settleWs s (Except.error (WsReject.transportFault m))

/-- Run the websocket handlers over a sequence of delivered events,
starting from the initial state (`complete = false`, nothing sent,
promise pending). -/
def runWs (ctx : WsCtx) (events : List WsEvent) : WsState :=
  events.foldl (wsStep ctx) { complete := false, sent := [], outcome := none }

/-- Overall outcome of an API call that awaits the websocket promise:
normal return, a thrown/rejected error, or a promise that never settles. -/
inductive WsOutcome
  | ok
  | err (e : ApiErr)
  | pending
deriving DecidableEq, Repr

/-- Embedding of `sendWebsocketCommand` (lines 191-269): update the device
when `moduleId` or `portId` is falsy, throw the addressing errors when
either is still falsy, obtain the API key, then run the websocket protocol
over the delivered events and await the promise. -/
def sendWebsocketCommand (dev : RyobiGDODevice) (doorCommand : Int) (email : String)
    (env : ApiEnv) (events : List WsEvent) : WsOutcome :=
  match (if truthyNum dev.moduleId && truthyNum dev.portId
         then Except.ok dev else updateDevice dev env) with
  | Except.error e => WsOutcome.err e
  | Except.ok d =>
    if !truthyNum d.moduleId then WsOutcome.err ApiErr.doorModuleIdUndefined
    else if !truthyNum d.portId then WsOutcome.err ApiErr.doorPortIdUndefined
    else
      match env.authResult with
      | Except.error e => WsOutcome.err e
      | Except.ok apiKey =>
        let final := runWs
          { email := email, apiKey := apiKey, moduleId := d.moduleId,
            portId := d.portId, topic := d.id, doorCommand := doorCommand } events
        match final.outcome with
        | some (Except.ok _) => WsOutcome.ok
        | some (Except.error WsReject.premature) => WsOutcome.err ApiErr.wsClosedPrematurely
        | some (Except.error (WsReject.transportFault m)) => WsOutcome.err (ApiErr.wsError m)
        | none => WsOutcome.pending

/-- Embedding of `openDoor` (lines 37-44): send `{doorCommand: 1}` inside a
try/catch that logs and swallows every error. -/
def openDoor (dev : RyobiGDODevice) (email : String) (env : ApiEnv)
    (events : List WsEvent) : WsOutcome :=
  match sendWebsocketCommand dev 1 email env events with
  | WsOutcome.ok => WsOutcome.ok
  | WsOutcome.err _ => WsOutcome.ok
  | WsOutcome.pending => WsOutcome.pending

/-- Embedding of `closeDoor` (lines 46-53): send `{doorCommand: 0}` inside a
try/catch that logs and swallows every error. -/
def closeDoor (dev : RyobiGDODevice) (email : String) (env : ApiEnv)
    (events : List WsEvent) : WsOutcome :=
  match sendWebsocketCommand dev 0 email env events with
  | WsOutcome.ok => WsOutcome.ok
  | WsOutcome.err _ => WsOutcome.ok
  | WsOutcome.pending => WsOutcome.pending

/-- Whitespace class of the regular expressions (`\s`). -/
def isWsChar (c : Char) : Bool := c.isWhitespace

/-- Attempt to strip the literal `pat` case-insensitively from the head of
`l`, returning the remainder on success. -/
def dropLitCI : List Char → List Char → Option (List Char)
  | [], l => some l
  | _ :: _, [] => none
  | p :: ps, c :: cs => if p.toLower = c.toLower then dropLitCI ps cs else none

/-- Match attempt of `/expires\s*=\s*([^;]+)/i` at the head of `l`,
returning the capture group.  After the literal and `\s*=` the quantifiers
backtrack exactly as the JavaScript engine does: the capture is the maximal
run of non-semicolon characters after the greedily consumed whitespace, or
the last whitespace character when that run is empty. -/
def matchExpiresAt (l : List Char) : Option (List Char) :=
  match dropLitCI "expires".toList l with
  | none => none
  | some r1 =>
    match r1.dropWhile isWsChar with
    | '=' :: r3 =>
      let w := r3.takeWhile isWsChar
      let t := r3.dropWhile isWsChar
      let v := t.takeWhile (fun c => c ≠ ';')
      if v.isEmpty then
        match w.getLast? with
        | some c => some [c]
        | none => none
      else some v
    | _ => none

/-- Leftmost match of the expires pattern: try every start position from the
left, as `String.prototype.match` does. -/
def firstExpiresMatch : List Char → Option (List Char)
  | [] => matchExpiresAt []
  | c :: cs =>
    match matchExpiresAt (c :: cs) with
    | some v => some v
    | none => firstExpiresMatch cs

/-- Embedding of `cookie.match(/expires\s*=\s*([^;]+)/i)` (line 274),
reduced to the capture group. -/
def matchExpires (cookie : String) : Option String :=
  (firstExpiresMatch cookie.toList).map fun l => String.mk l

/-- Match attempt of `/([^=]+)=([^;]+)/` at the head of `l`: a nonempty run
of non-equals characters, a literal equals sign, and a nonempty run of
non-semicolon characters. -/
def matchNameValueAt (l : List Char) : Option (List Char × List Char) :=
  match l.span (fun c => c ≠ '=') with
  | ([], _) => none
  | (nm, rest) =>
    match rest with
    | '=' :: r2 =>
      let v := r2.takeWhile (fun c => c ≠ ';')
      if v.isEmpty then none else some (nm, v)
    | _ => none

/-- Leftmost match of the name=value pattern. -/
def firstNameValueMatch : List Char → Option (List Char × List Char)
  | [] => matchNameValueAt []
  | c :: cs =>
    match matchNameValueAt (c :: cs) with
    | some r => some r
    | none => firstNameValueMatch cs

/-- Embedding of `cookie.match(/([^=]+)=([^;]+)/)` (line 278), reduced to
the two capture groups. -/
def matchNameValue (cookie : String) : Option (String × String) :=
  (firstNameValueMatch cookie.toList).map fun p => (String.mk p.1, String.mk p.2)

/-- RyobiGDOSession models the mutable session record: the cookie map (a
JavaScript object, modelled as a total lookup function), the cached API key,
and the cookie expiry.  The expiry is a `Date` object; a `Date` is modelled
as `Option Int` — `some t` for a valid timestamp, `none` for an invalid
date, whose comparisons are all false.  The type file `RyobiGDOSession.ts`
is not among the given sources; the fields are exactly the ones
`RyobiGDOApi.ts` uses. -/
structure RyobiGDOSession where
  cookies : String → Option String
  apiKey : Option String
  cookieExpires : Option (Option Int)

/-- Pointwise update of the cookie map: `session.cookies[name] = value`. -/
def setCookie (m : String → Option String) (n v : String) : String → Option String :=
  fun x => if x = n then some v else m x

/-- Effect of one iteration of the loop in `updateSessionFromCookies`
(lines 273-282) for one `set-cookie` string: when the expires pattern
matches, overwrite `cookieExpires` with the parsed date; when the
name=value pattern matches, overwrite that cookie.  `parseDate` stands for
the JavaScript `new Date(string)` constructor (a platform primitive),
returning `none` for an invalid date. -/
def applyCookie (parseDate : String → Option Int) (s : RyobiGDOSession) (cookie : String) :
    RyobiGDOSession :=
  let s1 :=
    match matchExpires cookie with
    | some cap => { s with cookieExpires := some (parseDate cap) }
    | none => s
  match matchNameValue cookie with
  | some (n, v) => { s1 with cookies := setCookie s1.cookies n v }
  | none => s1

/-- Embedding of `updateSessionFromCookies` (lines 272-283): fold the
per-cookie update over the `set-cookie` header list in order. -/
def updateSessionFromCookies (parseDate : String → Option Int) (s : RyobiGDOSession)
    (cookies : List String) : RyobiGDOSession :=
  cookies.foldl (applyCookie parseDate) s

/-- Value of `result.result` in the parsed login response: a string (the
failure shape) or an object whose `auth.apiKey` chain yields an optional
string (`apiKey` collapses `result.result?.auth?.apiKey`; an absent
`result` or `auth` object is `objRes none`). -/
inductive LoginResult
  | strRes (s : String)
  | objRes (apiKey : Option String)
deriving DecidableEq, Repr

/-- AuthenticationError thrown by `getApiKey` (line 140), carrying the raw
`result.result` value for diagnostics. -/
structure AuthFail where
  raw : LoginResult
deriving DecidableEq, Repr

/-- Cached-key condition of `getApiKey` (line 127):
`this.session.apiKey && this.session.cookieExpires && this.session.cookieExpires > new Date()`.
A `Date` object is always truthy; the comparison is false for an invalid
date. -/
def cacheValid (s : RyobiGDOSession) (now : Int) : Bool :=
  truthyStr s.apiKey &&
    match s.cookieExpires with
    | some (some t) => decide (now < t)
    | some none => false
    | none => false

/-- Embedding of `getApiKey` (lines 125-145): return the cached key without
any network request when the cached condition holds; otherwise perform the
login request — whose response cookies are merged into the session before
the body is inspected — and either throw `AuthFail` (when `result` is a
string or `result.auth?.apiKey` is falsy) or cache and return the key.
The returned `Nat` counts the login network requests this call performed. -/
def getApiKey (parseDate : String → Option Int) (s : RyobiGDOSession) (now : Int)
    (loginResult : LoginResult) (loginCookies : List String) :
    Except AuthFail (String × RyobiGDOSession × Nat) :=
  if cacheValid s now then
    Except.ok (s.apiKey.getD "", s, 0)
  else
    let s1 := updateSessionFromCookies parseDate s loginCookies
    match loginResult with
    | LoginResult.strRes msg => Except.error ⟨LoginResult.strRes msg⟩
    | LoginResult.objRes apiKey =>
      match apiKey with
      | none => Except.error ⟨LoginResult.objRes none⟩
      | some k =>
        if k = "" then Except.error ⟨LoginResult.objRes (some k)⟩
        else Except.ok (k, { s1 with apiKey := some k }, 1)

/-- Session state after a successful login pass of `getApiKey`: cookies
merged from the login response, the returned key cached. -/
def loginSession (parseDate : String → Option Int) (s : RyobiGDOSession)
    (cookies : List String) (k : String) : RyobiGDOSession :=
  { updateSessionFromCookies parseDate s cookies with apiKey := some k }

/-- Classifier used to state claims about the login response: the string
failure shape. -/
def loginResultIsString : LoginResult → Bool
  | LoginResult.strRes _ => true
  | _ => false

/-- Classifier: the chained `result.auth?.apiKey` value is present (a
string, possibly empty). -/
def loginApiKeyPresent : LoginResult → Bool
  | LoginResult.objRes (some _) => true
  | _ => false

/-- Classifier: the chained `result.auth?.apiKey` value is truthy (present
and nonempty), exactly the condition line 139 tests with `!`. -/
def loginApiKeyTruthy : LoginResult → Bool
  | LoginResult.objRes (some k) => decide (k ≠ "")
  | _ => false

/-- Capture of the expires pattern in the last cookie string that has one:
the value the fold leaves in `cookieExpires`. -/
def lastExpires : List String → Option String
  | [] => none
  | c :: cs =>
    match lastExpires cs with
    | some cap => some cap
    | none => matchExpires c

/-- Value of the last name=value match for the name `x` in the cookie list:
the value the fold leaves in the cookie map at `x`. -/
def lastCookieVal (x : String) : List String → Option String
  | [] => none
  | c :: cs =>
    match lastCookieVal x cs with
    | some v => some v
    | none =>
      match matchNameValue c with
      | some (n, v) => if x = n then some v else none
      | none => none

/-- Concrete garage-door module: profiles contain `garageDoor_7`, port 7,
module 2, door state 1 (OPEN). -/
def modGarage : RyobiModule :=
  ⟨some ⟨some [JsPrim.str "garageDoor_7"], some (JsPrim.num 7), some (JsPrim.num 2),
    some (JsPrim.num 1)⟩⟩

/-- Concrete `deviceTypeMap` holding the garage-door module under the key
its port number selects. -/
def statusMapW : List (String × RyobiModule) := [("garageDoor_7", modGarage)]

/-- Concrete device known only by id. -/
def devIdOnly : RyobiGDODevice := ⟨some "abc123", none, none, none, none, none, none, none, none⟩

/-- Concrete environment delivering a well-formed status response. -/
def envStatusW : ApiEnv :=
  ⟨Except.ok "KEY", DevListResult.arrRes [], some [⟨some statusMapW⟩], 42⟩

/-- Device state after updating `devIdOnly` against `envStatusW`. -/
def devResolvedW : RyobiGDODevice :=
  ⟨some "abc123", none, none, none, none, some 2, some 7, some 1, some 42⟩

/-- Concrete environment whose status response's first element carries no
`deviceTypeMap`. -/
def envNoMap : ApiEnv := ⟨Except.ok "KEY", DevListResult.arrRes [], some [⟨none⟩], 777⟩

/-- Concrete device that already carries addressing and state fields. -/
def devC4 : RyobiGDODevice := ⟨some "dev1", none, none, none, none, some 2, some 7, some 1, some 10⟩

/-- Concrete environment whose status response has an empty
`deviceTypeMap`: no garage-door module can be found. -/
def envEmptyMap : ApiEnv := ⟨Except.ok "KEY", DevListResult.arrRes [], some [⟨some []⟩], 42⟩

/-- Result of updating `devC4` against `envEmptyMap`: the previously set
`moduleId`, `portId` and `state` are overwritten with `undefined`. -/
def devC4after : RyobiGDODevice := ⟨some "dev1", none, none, none, none, none, none, none, some 42⟩

/-- Concrete completely unknown device. -/
def devEmpty : RyobiGDODevice := ⟨none, none, none, none, none, none, none, none, none⟩

/-- Concrete garage-door module whose `moduleId` value is the number 0. -/
def modZeroW : RyobiModule :=
  ⟨some ⟨some [JsPrim.str "garageDoor_5"], some (JsPrim.num 5), some (JsPrim.num 0),
    some (JsPrim.num 1)⟩⟩

/-- Concrete environment that resolves `moduleId = 0`, `portId = 5`. -/
def envZeroW : ApiEnv :=
  ⟨Except.ok "KEY", DevListResult.arrRes [], some [⟨some [("garageDoor_5", modZeroW)]⟩], 42⟩

/-- Device state after updating `devEmpty` against `envZeroW`. -/
def devZeroAfter : RyobiGDODevice := ⟨none, none, none, none, none, some 0, some 5, some 1, some 42⟩

/-- Concrete environment whose status response is absent (the
`Invalid response` throw path). -/
def envInvalidW : ApiEnv := ⟨Except.ok "KEY", DevListResult.arrRes [], none, 0⟩

/-- Concrete device with truthy addressing fields, ready for the websocket
path. -/
def devWs : RyobiGDODevice := ⟨some "abc123", none, none, none, none, some 2, some 7, none, none⟩

/-- Concrete websocket handler context. -/
def ctxW : WsCtx := ⟨"e", "KEY", some 2, some 7, some "abc123", 1⟩

/-- Initial websocket state. -/
def wsInit : WsState := ⟨false, [], none⟩

/-- Concrete raw device-list entry classifying as a hub. -/
def rawHub : RawDevice := ⟨some "abc123", none, some ["wgd1234hub"]⟩

/-- Concrete environment serving a one-entry device list. -/
def envListW : ApiEnv := ⟨Except.ok "KEY", DevListResult.arrRes [rawHub], none, 0⟩

/-- Date parser used by concrete sessions: only the string "X" is a valid
date, with timestamp 100. -/
def pdW : String → Option Int := fun z => if z = "X" then some 100 else none

/-- Date parser that treats every string as an invalid date. -/
def pdNone : String → Option Int := fun _ => none

/-- Fresh session: no cookies, no key, no expiry. -/
def emptySession : RyobiGDOSession := ⟨fun _ => none, none, none⟩

/-- Session with a cached key "CK" and a valid expiry at time 100. -/
def sCachedW : RyobiGDOSession := ⟨fun _ => none, some "CK", some (some 100)⟩

/-- Login response cookie list carrying one cookie and an expires
attribute. -/
def cookiesW : List String := ["sid=1; expires=X"]

/-- C2: for every device whose resolved state code is 0, 1, 2 or 3,
`getStatus` returns CLOSED, OPEN, CLOSING or OPENING respectively; for
every other resolved numeric state code it returns the unknown-state
result (`undefined`), not an error. -/
theorem getStatus_doorStateCodes (dev : RyobiGDODevice) (env : ApiEnv)
    (d : RyobiGDODevice) (c : Int)
    (hupd : updateDevice dev env = Except.ok d) (hstate : d.state = some c) :
    getStatus dev env = Except.ok (doorStateMap.lookup c) ∧
    (c = 0 → getStatus dev env = Except.ok (some DoorState.CLOSED)) ∧
    (c = 1 → getStatus dev env = Except.ok (some DoorState.OPEN)) ∧
    (c = 2 → getStatus dev env = Except.ok (some DoorState.CLOSING)) ∧
    (c = 3 → getStatus dev env = Except.ok (some DoorState.OPENING)) ∧
    (c ≠ 0 → c ≠ 1 → c ≠ 2 → c ≠ 3 → getStatus dev env = Except.ok none) := by
  have hgs : getStatus dev env = Except.ok (doorStateMap.lookup c) := by
    simp [getStatus, hupd, hstate]
  refine ⟨hgs, ?_, ?_, ?_, ?_, ?_⟩
  · intro h; subst h; rw [hgs]; rfl
  · intro h; subst h; rw [hgs]; rfl
  · intro h; subst h; rw [hgs]; rfl
  · intro h; subst h; rw [hgs]; rfl
  · intro h0 h1 h2 h3
    rw [hgs]
    have l0 : (c == 0) = false := beq_eq_false_iff_ne.mpr h0
    have l1 : (c == 1) = false := beq_eq_false_iff_ne.mpr h1
    have l2 : (c == 2) = false := beq_eq_false_iff_ne.mpr h2
    have l3 : (c == 3) = false := beq_eq_false_iff_ne.mpr h3
    simp [doorStateMap, List.lookup, l0, l1, l2, l3]

/-- C2 witness: a concrete status response resolving door-state code 1
makes `getStatus` return OPEN. -/
theorem getStatus_doorStateCodes_witness :
    getStatus devIdOnly envStatusW = Except.ok (some DoorState.OPEN) :=
  (getStatus_doorStateCodes devIdOnly envStatusW devResolvedW 1 rfl rfl).2.2.1 rfl

/-- C7: every raw device-list entry maps to a device with `id = varName`,
`name`/`description` from `metaData` defaulting to the empty string,
`model` the first `deviceTypeIds` element defaulting to the empty string,
and `type` equal to "hub" exactly when the model matches "hub"
case-insensitively, else "gdo"; no produced field is missing. -/
theorem getDevices_mapping (env : ApiEnv) (l : List RawDevice) (k : String)
    (r : RawDevice)
    (ha : env.authResult = Except.ok k) (hl : env.devListResult = DevListResult.arrRes l) :
    getDevices env = Except.ok (l.map mapRawDevice) ∧
    (mapRawDevice r).id = r.varName.getD "" ∧
    (mapRawDevice r).name = (r.metaData.bind RawMeta.name).getD "" ∧
    (mapRawDevice r).description = (r.metaData.bind RawMeta.description).getD "" ∧
    (mapRawDevice r).model = (r.deviceTypeIds.bind List.head?).getD "" ∧
    ((mapRawDevice r).type_ = "hub" ↔
      hubCI ((r.deviceTypeIds.bind List.head?).getD "") = true) ∧
    ((mapRawDevice r).type_ = "hub" ∨ (mapRawDevice r).type_ = "gdo") ∧
    hubCI "wgd1234hub" = true ∧ hubCI "wgd1234" = false := by
  refine ⟨by simp [getDevices, ha, hl], rfl, rfl, rfl, rfl, ?_, ?_, by decide, by decide⟩
  · unfold mapRawDevice
    cases h : hubCI ((r.deviceTypeIds.bind List.head?).getD "") <;> simp [h]
  · unfold mapRawDevice
    cases h : hubCI ((r.deviceTypeIds.bind List.head?).getD "") <;> simp [h]

/-- C7 witness: a concrete one-entry list is mapped through
`mapRawDevice`. -/
theorem getDevices_mapping_witness :
    getDevices envListW = Except.ok [mapRawDevice rawHub] :=
  (getDevices_mapping envListW [rawHub] "KEY" rawHub rfl rfl).1

/-- C9: `openDoor` and `closeDoor` never propagate an error: whatever the
device, environment and websocket events, they either return normally or
stay pending (when the websocket promise never settles); in particular
whenever `sendWebsocketCommand` throws or rejects, they catch, log and
return normally. -/
theorem openDoor_closeDoor_catch (dev : RyobiGDODevice) (email : String)
    (env : ApiEnv) (events : List WsEvent) :
    (openDoor dev email env events = WsOutcome.ok ∨
      openDoor dev email env events = WsOutcome.pending) ∧
    (closeDoor dev email env events = WsOutcome.ok ∨
      closeDoor dev email env events = WsOutcome.pending) ∧
    (∀ e, sendWebsocketCommand dev 1 email env events = WsOutcome.err e →
      openDoor dev email env events = WsOutcome.ok) ∧
    (∀ e, sendWebsocketCommand dev 0 email env events = WsOutcome.err e →
      closeDoor dev email env events = WsOutcome.ok) := by
  refine ⟨?_, ?_, ?_, ?_⟩
  · unfold openDoor
    cases sendWebsocketCommand dev 1 email env events <;> simp
  · unfold closeDoor
    cases sendWebsocketCommand dev 0 email env events <;> simp
  · intro e he; unfold openDoor; rw [he]
  · intro e he; unfold closeDoor; rw [he]

/-- C9 witness: with an environment whose status response is invalid,
`sendWebsocketCommand` throws, yet `openDoor` returns normally. -/
theorem openDoor_closeDoor_catch_witness :
    openDoor devEmpty "e" envInvalidW [] = WsOutcome.ok :=
  (openDoor_closeDoor_catch devEmpty "e" envInvalidW []).2.2.1 ApiErr.invalidResponse rfl

/-- C3 counterexample: a call of `updateDevice` that does not fail with the
non-empty-array protocol error (it returns successfully) and still leaves
`stateAsOf` unset, because the response's first element carries no
`deviceTypeMap` and the source returns before line 96. -/
theorem updateDevice_no_stamp_cex :
    updateDevice devIdOnly envNoMap = Except.ok devIdOnly ∧
    devIdOnly.stateAsOf = none ∧ envNoMap.now = 777 :=
  ⟨rfl, rfl, rfl⟩

/-- C3 (amended): every call of `updateDevice` that returns successfully
and whose status response's first element carries a `deviceTypeMap` stamps
`stateAsOf` with the current time, even when the door-state code could not
be resolved; when the `deviceTypeMap` is missing the call returns without
stamping. -/
theorem updateDevice_stamps (dev : RyobiGDODevice) (env : ApiEnv)
    (first : StatusEntry) (rest : List StatusEntry)
    (map : List (String × RyobiModule)) (d' : RyobiGDODevice)
    (hres : env.statusResult = some (first :: rest))
    (hmap : first.deviceTypeMap = some map)
    (hok : updateDevice dev env = Except.ok d') :
    d'.stateAsOf = some env.now := by
  unfold updateDevice at hok
  rw [hres] at hok
  dsimp only at hok
  rw [hmap] at hok
  dsimp only at hok
  split at hok
  · exact absurd hok (by simp)
  · split at hok
    · exact absurd hok (by simp)
    · injection hok with h
      rw [← h]
      simp [applyStatus]

/-- C3 witness: a successful update against a well-formed response stamps
`stateAsOf` with the environment's current time. -/
theorem updateDevice_stamps_witness :
    devResolvedW.stateAsOf = some envStatusW.now :=
  updateDevice_stamps devIdOnly envStatusW ⟨some statusMapW⟩ [] statusMapW devResolvedW
    rfl rfl rfl

/-- Case analysis helper: `Object.assign` with an optional source either
leaves the device unchanged or overwrites the five listed fields. -/
theorem assignDevice_cases (dev : RyobiGDODevice) (o : Option FullDevice) :
    assignDevice dev o = dev ∨ ∃ f, assignDevice dev o = assignFull dev f := by
  cases o with
  | none => exact Or.inl rfl
  | some f => exact Or.inr ⟨f, rfl⟩

/-- Case analysis of a successful `getDeviceId`: the device is either
untouched or enriched by `Object.assign` from a found full device. -/
theorem getDeviceId_ok_cases (dev : RyobiGDODevice) (env : ApiEnv) (d1 : RyobiGDODevice)
    (h : getDeviceId dev env = Except.ok d1) :
    d1 = dev ∨ ∃ f : FullDevice, d1 = assignFull dev f := by
  unfold getDeviceId at h
  split at h
  · injection h with h2
    exact Or.inl h2.symm
  · split at h
    · exact absurd h (by simp)
    · split at h
      · injection h with h2
        rw [← h2]
        exact assignDevice_cases dev _
      · injection h with h2
        rw [← h2]
        exact assignDevice_cases dev _

/-- Case analysis of a successful `updateDevice`: the result is the
(possibly id-enriched) device, either untouched (no `deviceTypeMap`) or
with the four status fields overwritten by `applyStatus`. -/
theorem updateDevice_ok_cases (dev : RyobiGDODevice) (env : ApiEnv) (d2 : RyobiGDODevice)
    (h : updateDevice dev env = Except.ok d2) :
    ∃ d1, (d1 = dev ∨ ∃ f : FullDevice, d1 = assignFull dev f) ∧
      (d2 = d1 ∨ ∃ map, d2 = applyStatus d1 map env.now) := by
  unfold updateDevice at h
  split at h
  · exact absurd h (by simp)
  · next dev1 heq =>
    have hd1 : dev1 = dev ∨ ∃ f : FullDevice, dev1 = assignFull dev f := by
      by_cases hid : truthyStr dev.id = true
      · rw [if_pos hid] at heq
        injection heq with h2
        exact Or.inl h2.symm
      · rw [if_neg hid] at heq
        exact getDeviceId_ok_cases dev env dev1 heq
    refine ⟨dev1, hd1, ?_⟩
    split at h
    · exact absurd h (by simp)
    · split at h
      · split at h
        · injection h with h2
          exact Or.inl h2.symm
        · injection h with h2
          exact Or.inr ⟨_, h2.symm⟩
      · exact absurd h (by simp)

/-- C4 counterexample: `updateDevice` can shrink the device record — a
device whose `moduleId`, `portId` and `state` were set loses all three when
the new response's `deviceTypeMap` contains no garage-door module, because
lines 93-95 overwrite them with `toNumber(undefined) = undefined`. -/
theorem updateDevice_shrinks_cex :
    updateDevice devC4 envEmptyMap = Except.ok devC4after ∧
    devC4.state = some 1 ∧ devC4after.state = none ∧
    devC4.moduleId = some 2 ∧ devC4after.moduleId = none ∧
    devC4.portId = some 7 ∧ devC4after.portId = none :=
  ⟨rfl, rfl, rfl, rfl, rfl, rfl, rfl⟩

/-- C4 (amended): `getDeviceId` only enriches — every field set before the
call is still set after it and the non-assigned fields are untouched;
`updateDevice` preserves every field except `moduleId`, `portId` and
`state`, which are overwritten with the newly resolved values and may
become unset when resolution fails (`stateAsOf` is stamped or
preserved). -/
theorem device_enrichment (dev : RyobiGDODevice) (env : ApiEnv)
    (d1 d2 : RyobiGDODevice)
    (h1 : getDeviceId dev env = Except.ok d1)
    (h2 : updateDevice dev env = Except.ok d2) :
    (dev.id.isSome = true → d1.id.isSome = true) ∧
    (dev.name.isSome = true → d1.name.isSome = true) ∧
    (dev.description.isSome = true → d1.description.isSome = true) ∧
    (dev.model.isSome = true → d1.model.isSome = true) ∧
    (dev.type_.isSome = true → d1.type_.isSome = true) ∧
    d1.moduleId = dev.moduleId ∧ d1.portId = dev.portId ∧
    d1.state = dev.state ∧ d1.stateAsOf = dev.stateAsOf ∧
    (dev.id.isSome = true → d2.id.isSome = true) ∧
    (dev.name.isSome = true → d2.name.isSome = true) ∧
    (dev.description.isSome = true → d2.description.isSome = true) ∧
    (dev.model.isSome = true → d2.model.isSome = true) ∧
    (dev.type_.isSome = true → d2.type_.isSome = true) ∧
    (dev.stateAsOf.isSome = true → d2.stateAsOf.isSome = true) := by
  obtain ⟨dmid, hmid, hfin⟩ := updateDevice_ok_cases dev env d2 h2
  rcases getDeviceId_ok_cases dev env d1 h1 with hA | ⟨f, hA⟩ <;>
    rcases hmid with hB | ⟨g, hB⟩ <;>
      rcases hfin with hC | ⟨map, hC⟩ <;>
        subst hA hB hC <;>
          simp [assignFull, applyStatus]

/-- C4 witness: a previously set `stateAsOf` is still set after a
successful `updateDevice` (the counterexample device keeps its stamp
field). -/
theorem device_enrichment_witness :
    devC4after.stateAsOf.isSome = true :=
  (device_enrichment devC4 envEmptyMap devC4 devC4after rfl
    rfl).2.2.2.2.2.2.2.2.2.2.2.2.2.2 (by decide)

/-- C10: when the guard on line 192 triggers an `updateDevice` attempt and
the resolved `moduleId` or `portId` equals the number 0,
`sendWebsocketCommand` throws one of the addressing ("undefined") errors
even though the identifier is a resolved numeric value, because the checks
on lines 196-201 test truthiness and the number 0 is falsy. -/
theorem sendWebsocketCommand_zero_ids (dev : RyobiGDODevice) (cmd : Int)
    (email : String) (env : ApiEnv) (events : List WsEvent) (d' : RyobiGDODevice)
    (htrig : (truthyNum dev.moduleId && truthyNum dev.portId) = false)
    (hupd : updateDevice dev env = Except.ok d')
    (h0 : d'.moduleId = some 0 ∨ d'.portId = some 0) :
    sendWebsocketCommand dev cmd email env events = WsOutcome.err ApiErr.doorModuleIdUndefined ∨
    sendWebsocketCommand dev cmd email env events = WsOutcome.err ApiErr.doorPortIdUndefined := by
  unfold sendWebsocketCommand
  rw [htrig]
  simp only [Bool.false_eq_true, if_false]
  rw [hupd]
  dsimp only
  rcases h0 with h | h
  · left
    rw [h]
    simp [truthyNum]
  · cases hm : truthyNum d'.moduleId
    · left
      simp [hm]
    · right
      rw [h]
      simp [hm, truthyNum]

/-- C10 witness: a device with no addressing fields resolves against an
environment whose garage-door module has `moduleId.value = 0`, and the
command throws an addressing error. -/
theorem sendWebsocketCommand_zero_ids_witness :
    sendWebsocketCommand devEmpty 1 "e" envZeroW [] = WsOutcome.err ApiErr.doorModuleIdUndefined ∨
    sendWebsocketCommand devEmpty 1 "e" envZeroW [] = WsOutcome.err ApiErr.doorPortIdUndefined :=
  sendWebsocketCommand_zero_ids devEmpty 1 "e" envZeroW [] devZeroAfter (by decide) rfl
    (Or.inl rfl)

/-- C1: after an authorized message is received the command frame and a
ping are sent and the `complete` flag is set; a pong settles the promise
successfully while it is pending; a close before the flag is set rejects
with the premature-close error; and concretely, a full command invocation
over open/authorized/pong resolves while open/close rejects with
`ChannelClosedError`. -/
theorem sendWebsocketCommand_protocol (ctx : WsCtx) (s : WsState)
    (dev : RyobiGDODevice) (cmd : Int) (email k : String) (env : ApiEnv)
    (hm : truthyNum dev.moduleId = true) (hp : truthyNum dev.portId = true)
    (ha : env.authResult = Except.ok k) :
    (wsStep ctx s (WsEvent.message true)).complete = true ∧
    (wsStep ctx s (WsEvent.message true)).sent =
      s.sent ++ [commandFrame ctx, WsFrame.ping] ∧
    (s.outcome = none →
      (wsStep ctx s WsEvent.pong).outcome = some (Except.ok ())) ∧
    (s.outcome = none → s.complete = false →
      (wsStep ctx s WsEvent.connClose).outcome =
        some (Except.error WsReject.premature)) ∧
    sendWebsocketCommand dev cmd email env
      [WsEvent.connOpen, WsEvent.message true, WsEvent.pong] = WsOutcome.ok ∧
    sendWebsocketCommand dev cmd email env
      [WsEvent.connOpen, WsEvent.connClose] = WsOutcome.err ApiErr.wsClosedPrematurely := by
  refine ⟨by simp [wsStep], by simp [wsStep], ?_, ?_, ?_, ?_⟩
  · intro h
    simp [wsStep, settleWs, h]
  · intro h hc
    simp [wsStep, settleWs, h, hc]
  · simp [sendWebsocketCommand, hm, hp, ha, runWs, wsStep, settleWs]
  · simp [sendWebsocketCommand, hm, hp, ha, runWs, wsStep, settleWs]

/-- C1 witness: a concrete device with resolved addressing completes the
open-door command on open/authorized/pong, and an early close rejects. -/
theorem sendWebsocketCommand_protocol_witness :
    sendWebsocketCommand devWs 1 "e" envInvalidW
      [WsEvent.connOpen, WsEvent.connClose] = WsOutcome.err ApiErr.wsClosedPrematurely :=
  (sendWebsocketCommand_protocol ctxW wsInit devWs 1 "e" "KEY" envInvalidW
    (by decide) (by decide) rfl).2.2.2.2.2

/-- C5: when the session holds a cached (truthy) API key and the cached
cookie expiry is a valid date strictly in the future, `getApiKey` returns
the cached key with zero login requests; a first call without a valid
cache performs exactly one login request and caches the key, a second call
within the resulting expiry window performs zero further requests, and a
call outside the window performs a second login request. -/
theorem getApiKey_caching (parseDate : String → Option Int)
    (s s0 : RyobiGDOSession) (resp : LoginResult) (cookies : List String)
    (t t1 t2 t3 : Int) (k c : String) (texp : Int)
    (hck : s.apiKey = some c) (hc : c ≠ "")
    (hexp : s.cookieExpires = some (some texp)) (hfut : t < texp)
    (hnc : cacheValid s0 t1 = false)
    (hresp : resp = LoginResult.objRes (some k)) (hk : k ≠ "") :
    getApiKey parseDate s t resp cookies = Except.ok (c, s, 0) ∧
    getApiKey parseDate s0 t1 resp cookies =
      Except.ok (k, loginSession parseDate s0 cookies k, 1) ∧
    (cacheValid (loginSession parseDate s0 cookies k) t2 = true →
      getApiKey parseDate (loginSession parseDate s0 cookies k) t2 resp cookies =
        Except.ok (k, loginSession parseDate s0 cookies k, 0)) ∧
    (cacheValid (loginSession parseDate s0 cookies k) t3 = false →
      getApiKey parseDate (loginSession parseDate s0 cookies k) t3 resp cookies =
        Except.ok (k, loginSession parseDate (loginSession parseDate s0 cookies k) cookies k, 1)) := by
  refine ⟨?_, ?_, ?_, ?_⟩
  · have hcv : cacheValid s t = true := by
      simp [cacheValid, hck, truthyStr, hc, hexp, hfut]
    simp [getApiKey, hcv, hck]
  · simp [getApiKey, hnc, hresp, hk, loginSession]
  · intro h2
    unfold getApiKey
    rw [if_pos h2]
    simp [loginSession]
  · intro h3
    unfold getApiKey
    rw [if_neg (by simp [h3])]
    subst hresp
    simp [loginSession, hk]

/-- C5 witness: after a concrete login that cached key "KEY" with expiry
100, a second call at time 50 returns the cached key with zero requests. -/
theorem getApiKey_caching_witness :
    getApiKey pdW (loginSession pdW emptySession cookiesW "KEY") 50
      (LoginResult.objRes (some "KEY")) cookiesW =
      Except.ok ("KEY", loginSession pdW emptySession cookiesW "KEY", 0) :=
  (getApiKey_caching pdW sCachedW emptySession (LoginResult.objRes (some "KEY"))
    cookiesW 50 0 50 200 "KEY" "CK" 100 rfl (by decide) rfl (by decide) (by decide)
    rfl (by decide)).2.2.1 (by decide)

/-- C6 counterexample: a login response whose `result.auth.apiKey` is
present but is the empty string is rejected with the AuthenticationError
(line 139 tests truthiness, and the empty string is falsy), although the
claim's condition — result a string, or the key absent — does not hold. -/
theorem getApiKey_emptyKey_cex :
    getApiKey pdNone emptySession 0 (LoginResult.objRes (some "")) [] =
      Except.error ⟨LoginResult.objRes (some "")⟩ ∧
    loginResultIsString (LoginResult.objRes (some "")) = false ∧
    loginApiKeyPresent (LoginResult.objRes (some "")) = true :=
  ⟨rfl, rfl, rfl⟩

/-- C6 (amended): on the login path (no valid cached key), `getApiKey`
fails if and only if the response's `result` is a string or
`result.auth.apiKey` is absent or empty (falsy); the error carries the raw
result; on every other response it caches the contained key in the session
and returns it (one login request). -/
theorem getApiKey_failure_iff (parseDate : String → Option Int)
    (s : RyobiGDOSession) (t : Int) (resp : LoginResult) (cookies : List String)
    (hnc : cacheValid s t = false) :
    ((∃ e, getApiKey parseDate s t resp cookies = Except.error e) ↔
      (loginResultIsString resp = true ∨ loginApiKeyTruthy resp = false)) ∧
    (∀ e, getApiKey parseDate s t resp cookies = Except.error e → e = ⟨resp⟩) ∧
    (∀ k, resp = LoginResult.objRes (some k) → k ≠ "" →
      getApiKey parseDate s t resp cookies =
        Except.ok (k, loginSession parseDate s cookies k, 1)) := by
  rcases resp with m | ak
  · have hv : getApiKey parseDate s t (LoginResult.strRes m) cookies =
        Except.error ⟨LoginResult.strRes m⟩ := by
      simp [getApiKey, hnc]
    refine ⟨⟨fun _ => Or.inl rfl, fun _ => ⟨_, hv⟩⟩, ?_, ?_⟩
    · intro e he
      rw [hv] at he
      injection he with h
      exact h.symm
    · intro k hk
      cases hk
  · rcases ak with _ | k0
    · have hv : getApiKey parseDate s t (LoginResult.objRes none) cookies =
          Except.error ⟨LoginResult.objRes none⟩ := by
        simp [getApiKey, hnc]
      refine ⟨⟨fun _ => Or.inr rfl, fun _ => ⟨_, hv⟩⟩, ?_, ?_⟩
      · intro e he
        rw [hv] at he
        injection he with h
        exact h.symm
      · intro k hk
        injection hk with h
        cases h
    · by_cases hk0 : k0 = ""
      · subst hk0
        have hv : getApiKey parseDate s t (LoginResult.objRes (some "")) cookies =
            Except.error ⟨LoginResult.objRes (some "")⟩ := by
          simp [getApiKey, hnc]
        refine ⟨⟨fun _ => Or.inr (by simp [loginApiKeyTruthy]), fun _ => ⟨_, hv⟩⟩, ?_, ?_⟩
        · intro e he
          rw [hv] at he
          injection he with h
          exact h.symm
        · intro k hk hkne
          injection hk with h
          injection h with h2
          exact absurd h2.symm hkne
      · have hv : getApiKey parseDate s t (LoginResult.objRes (some k0)) cookies =
            Except.ok (k0, loginSession parseDate s cookies k0, 1) := by
          simp [getApiKey, hnc, hk0, loginSession]
        refine ⟨⟨?_, ?_⟩, ?_, ?_⟩
        · rintro ⟨e, he⟩
          rw [hv] at he
          cases he
        · rintro (h | h)
          · simp [loginResultIsString] at h
          · simp [loginApiKeyTruthy, hk0] at h
        · intro e he
          rw [hv] at he
          cases he
        · intro k hk hkne
          injection hk with h
          injection h with h2
          rw [← h2]
          exact hv

/-- C6 witness: on the login path with a nonempty key, `getApiKey` caches
and returns it. -/
theorem getApiKey_failure_iff_witness :
    getApiKey pdNone emptySession 0 (LoginResult.objRes (some "K")) [] =
      Except.ok ("K", loginSession pdNone emptySession [] "K", 1) :=
  (getApiKey_failure_iff pdNone emptySession 0 (LoginResult.objRes (some "K")) []
    (by decide)).2.2 "K" rfl (by decide)

/-- Session records are equal when their three fields are. -/
theorem RyobiGDOSession.ext' (a b : RyobiGDOSession)
    (h1 : a.cookies = b.cookies) (h2 : a.apiKey = b.apiKey)
    (h3 : a.cookieExpires = b.cookieExpires) : a = b := by
  cases a
  cases b
  simp_all

/-- Processing one cookie never touches the cached API key. -/
theorem applyCookie_apiKey (parseDate : String → Option Int)
    (s : RyobiGDOSession) (c : String) :
    (applyCookie parseDate s c).apiKey = s.apiKey := by
  unfold applyCookie
  rcases hE : matchExpires c with _ | cap <;>
    rcases hN : matchNameValue c with _ | ⟨n, v⟩ <;>
      simp [hE, hN]

/-- Processing one cookie sets `cookieExpires` from the expires capture
when present, else leaves it. -/
theorem applyCookie_cookieExpires (parseDate : String → Option Int)
    (s : RyobiGDOSession) (c : String) :
    (applyCookie parseDate s c).cookieExpires =
      match matchExpires c with
      | some cap => some (parseDate cap)
      | none => s.cookieExpires := by
  unfold applyCookie
  rcases hE : matchExpires c with _ | cap <;>
    rcases hN : matchNameValue c with _ | ⟨n, v⟩ <;>
      simp [hE, hN]

/-- Processing one cookie overwrites the cookie map at the matched name
when the name=value pattern matches, else leaves the map. -/
theorem applyCookie_cookies (parseDate : String → Option Int)
    (s : RyobiGDOSession) (c : String) :
    (applyCookie parseDate s c).cookies =
      match matchNameValue c with
      | some (n, v) => setCookie s.cookies n v
      | none => s.cookies := by
  unfold applyCookie
  rcases hE : matchExpires c with _ | cap <;>
    rcases hN : matchNameValue c with _ | ⟨n, v⟩ <;>
      simp [hE, hN]

/-- Folding a cookie list never touches the cached API key. -/
theorem updateSessionFromCookies_apiKey (parseDate : String → Option Int)
    (s : RyobiGDOSession) (cs : List String) :
    (updateSessionFromCookies parseDate s cs).apiKey = s.apiKey := by
  induction cs generalizing s with
  | nil => rfl
  | cons c cs ih =>
    have h1 : updateSessionFromCookies parseDate s (c :: cs) =
        updateSessionFromCookies parseDate (applyCookie parseDate s c) cs := rfl
    rw [h1, ih, applyCookie_apiKey]

/-- The folded `cookieExpires` is determined by the last cookie with an
expires capture, falling back to the initial value. -/
theorem updateSessionFromCookies_cookieExpires (parseDate : String → Option Int)
    (s : RyobiGDOSession) (cs : List String) :
    (updateSessionFromCookies parseDate s cs).cookieExpires =
      match lastExpires cs with
      | some cap => some (parseDate cap)
      | none => s.cookieExpires := by
  induction cs generalizing s with
  | nil => rfl
  | cons c cs ih =>
    have h1 : updateSessionFromCookies parseDate s (c :: cs) =
        updateSessionFromCookies parseDate (applyCookie parseDate s c) cs := rfl
    rw [h1, ih, applyCookie_cookieExpires]
    cases hL : lastExpires cs <;>
      cases hE : matchExpires c <;>
        simp [lastExpires, hL, hE]

/-- The folded cookie map at a name is determined by the last name=value
match for that name, falling back to the initial map. -/
theorem updateSessionFromCookies_cookies (parseDate : String → Option Int)
    (s : RyobiGDOSession) (cs : List String) (x : String) :
    (updateSessionFromCookies parseDate s cs).cookies x =
      match lastCookieVal x cs with
      | some v => some v
      | none => s.cookies x := by
  induction cs generalizing s with
  | nil => rfl
  | cons c cs ih =>
    have h1 : updateSessionFromCookies parseDate s (c :: cs) =
        updateSessionFromCookies parseDate (applyCookie parseDate s c) cs := rfl
    rw [h1, ih, applyCookie_cookies]
    cases hL : lastCookieVal x cs with
    | some v => simp [lastCookieVal, hL]
    | none =>
      cases hN : matchNameValue c with
      | none => simp [lastCookieVal, hL, hN]
      | some p =>
        cases p with
        | mk n v =>
          by_cases hx : x = n
          · subst hx
            simp [lastCookieVal, hL, hN, setCookie]
          · simp [lastCookieVal, hL, hN, setCookie, hx]

/-- C8: applying `updateSessionFromCookies` with the same `set-cookie`
list twice leaves the session (cookie map and `cookieExpires`) exactly as
applying it once, for every session, cookie list and date parser. -/
theorem updateSessionFromCookies_idem (parseDate : String → Option Int)
    (s : RyobiGDOSession) (cs : List String) :
    updateSessionFromCookies parseDate (updateSessionFromCookies parseDate s cs) cs =
      updateSessionFromCookies parseDate s cs := by
  apply RyobiGDOSession.ext'
  · funext x
    cases hL : lastCookieVal x cs <;>
      simp [updateSessionFromCookies_cookies, hL]
  · simp [updateSessionFromCookies_apiKey]
  · cases hL : lastExpires cs <;>
      simp [updateSessionFromCookies_cookieExpires, hL]
